import Mathlib

/-!
Shallow embedding of the two request handlers of this repository:

* `examples/python_rs/llm/tensorrt_llm/monolith/worker.py`
  (`TensorrtLLMEngine.generate_chat`, `TensorrtLLMEngine.generate_completion`)
* `examples/python_rs/llm/vllm_nixl/prefill_worker.py`
  (`RequestHandler.generate`)

External collaborators (the TensorRT-LLM engine, the chat templating code, the
vLLM engine client) are modelled by outcome parameters ("oracles"): each stage
that calls out of the handler is given its outcome (normal return or a raised
exception) as an input, and the handler definitions reproduce the handlers'
control flow over those outcomes.  Every handler run is summarised by its
result (normal termination or the exception that unwound it), the values of
the pieces of state it touches, and the ordered trace of calls it made to its
collaborators.
-/

/-- Python exceptions that occur in the two worker files.  `runtimeError`
carries the message string, mirroring Python's `RuntimeError(msg)`;
`cppExecutorError` is `tensorrt_llm.executor.CppExecutorError`; `indexError`
is the `IndexError` raised by an out-of-range subscript. -/
inductive PyExc where
  | cppExecutorError
  | runtimeError (msg : String)
  | indexError
  deriving DecidableEq

/-- Python's `str(e)` for the exceptions modelled here. -/
def PyExc.str : PyExc → String
  | .cppExecutorError => "CppExecutorError"
  | .runtimeError m => m
  | .indexError => "list index out of range"

deriving instance DecidableEq for Except

/-- Whether a run terminated normally (`.ok`) rather than by a raised
exception (`.error`). -/
def isOkE {ε α : Type} : Except ε α → Bool
  | .ok _ => true
  | .error _ => false

/-! ## Completion path (`TensorrtLLMEngine.generate_completion`, worker.py 110-147) -/

/-- The admissible shapes of `CompletionRequest.prompt`
(`Union[List[int], List[List[int]], str, List[str]]` in the pydantic model). -/
inductive CompletionPromptField where
  | str (s : String)
  | intList (ts : List Int)
  | strList (ss : List String)
  | intListList (tss : List (List Int))
  deriving DecidableEq

/-- One normalized prompt: raw text or a pre-tokenized sequence. -/
inductive OnePrompt where
  | str (s : String)
  | tokens (ts : List Int)
  deriving DecidableEq

/-- The fields of the completion request the handler reads.  The sampling
parameters and the disaggregated parameters are produced by external
conversion methods of the request object; they are modelled by opaque keys
carried by the request, which the conversion methods below return. -/
structure CompletionRequest where
  prompt : CompletionPromptField
  n : Option Int
  stream : Bool
  samplingKey : Int
  disaggKey : Option Int
  deriving DecidableEq

/-- `request.to_sampling_params()` (external conversion, worker.py line 126). -/
def CompletionRequest.to_sampling_params (r : CompletionRequest) : Int :=
  r.samplingKey

/-- `request.to_llm_disaggregated_params()` (external conversion, line 127). -/
def CompletionRequest.to_llm_disaggregated_params (r : CompletionRequest) : Option Int :=
  r.disaggKey

/-- worker.py lines 118-123: `isinstance(request.prompt, str)` or a list whose
first element is an `int` wraps the prompt in a singleton list; any other list
is used as-is.  Subscripting `request.prompt[0]` on an empty list raises
`IndexError` before the branch can be decided. -/
def normalizePrompt : CompletionPromptField → Except PyExc (List OnePrompt)
  | .str s => .ok [.str s]
  | .intList [] => .error .indexError
  | .intList (t :: ts) => .ok [.tokens (t :: ts)]
  | .strList [] => .error .indexError
  | .strList (s :: ss) => .ok ((s :: ss).map OnePrompt.str)
  | .intListList [] => .error .indexError
  | .intListList (ts :: tss) => .ok ((ts :: tss).map OnePrompt.tokens)

/-- Observable calls `generate_completion` makes to its collaborators, in
program order: deriving the sampling parameters (line 126), deriving the
disaggregated parameters (line 127), each `generate_async` submission
(lines 130-135), and handing `num_choices` to
`completions_processor.create_completion_generator` (lines 140-142). -/
inductive CEvent where
  | deriveSampling
  | deriveDisagg
  | engineCall (prompt : OnePrompt) (sp : Int) (streaming : Bool) (dp : Option Int)
  | createGenerator (numChoices : Int)
  deriving DecidableEq

/-- Summary of one run of `generate_completion`: how it terminated, the final
value of `self._ongoing_request_count`, and the trace of collaborator calls. -/
structure CompletionRun where
  result : Except PyExc Unit
  counter : Int
  events : List CEvent
  deriving DecidableEq

/-- worker.py lines 110-147.  `engineInit` is whether `self._llm_engine` is
set; `streamOut` is the outcome of consuming the merged response stream
(lines 143-144): `.ok` when the stream is drained normally, `.error e` when
some promise or the response generator raises `e` during consumption; `c` is
the value of `self._ongoing_request_count` on entry.  There is no
`try`/`finally`: the decrement at line 147 runs only when the `async for`
completes normally. -/
def generate_completion (engineInit : Bool) (req : CompletionRequest)
    (streamOut : Except PyExc Unit) (c : Int) : CompletionRun :=
  if engineInit = false then
    ⟨.error (.runtimeError "Engine not initialized"), c, []⟩
  else
    match normalizePrompt req.prompt with
    | .error e => ⟨.error e, c + 1, []⟩
    | .ok prompts =>
      let sp := req.to_sampling_params
      let dp := req.to_llm_disaggregated_params
      let calls := prompts.map (fun p => CEvent.engineCall p sp req.stream dp)
      let numChoices : Int :=
        match req.n with
        | none => (prompts.length : Int)
        | some n => (prompts.length : Int) * n
      let events := [CEvent.deriveSampling, CEvent.deriveDisagg] ++ calls
          ++ [CEvent.createGenerator numChoices]
      match streamOut with
      | .ok _ => ⟨.ok (), c + 1 - 1, events⟩
      | .error e => ⟨.error e, c + 1, events⟩

/-- The arguments of the `createGenerator` events of a trace. -/
def createGenArgs (evs : List CEvent) : List Int :=
  evs.filterMap fun e =>
    match e with
    | .createGenerator k => some k
    | _ => none

/-! ## Chat path (`TensorrtLLMEngine.generate_chat`, worker.py 60-108) -/

/-- The fields of the chat request the control flow of the handler inspects
directly; everything else (messages, tools, templates) only feeds the
external collaborators, whose outcomes the oracle carries. -/
structure ChatRequest where
  stream : Bool
  deriving DecidableEq

/-- Outcomes of the chat handler's calls to external collaborators:
`template` is the prompt-construction phase (worker.py lines 69-86:
`parse_chat_message_content`, `apply_chat_template`, `to_sampling_params`),
`invoke` is the `generate_async` submission (lines 89-93), `chunks` are the
response chunks the streaming phase yields before `streamEnd` resolves it
(lines 94-100), either by normal exhaustion or by a raised exception. -/
structure ChatOracle where
  template : Except PyExc Unit
  invoke : Except PyExc Unit
  chunks : List Nat
  streamEnd : Except PyExc Unit
  deriving DecidableEq

/-- An exception as it leaves the handler: `plain` when raised directly,
`chained` when raised inside an `except` block, where Python implicitly
records the caught exception as the new one's `__context__`. -/
inductive Raised where
  | plain (e : PyExc)
  | chained (e : PyExc) (ctx : PyExc)
  deriving DecidableEq

/-- Summary of one run of `generate_chat`: the chunks it yielded, whether it
raised `SIGINT` (worker.py line 106), and how it terminated. -/
structure ChatRun where
  yielded : List Nat
  sigint : Bool
  result : Except Raised Unit
  deriving DecidableEq

/-- The `RuntimeError` of worker.py line 103 — the spec's
`UnsupportedOperationError`. -/
def unsupportedOperationError : PyExc :=
  .runtimeError "Non-streaming is not supported"

/-- worker.py lines 104-108: `except CppExecutorError` raises the shutdown
signal and returns normally; `except Exception as e` re-raises
`RuntimeError("Failed to generate: " + str(e))`, which carries `e` as its
implicit `__context__`. -/
def chatCatch (yielded : List Nat) (e : PyExc) : ChatRun :=
  match e with
  | .cppExecutorError => ⟨yielded, true, .ok ()⟩
  | eo => ⟨yielded, false,
      .error (.chained (.runtimeError ("Failed to generate: " ++ eo.str)) eo)⟩

/-- worker.py lines 60-108.  `engineInit` is whether `self._llm_engine` is
set (checked at line 62, before the `try`, so its failure is raised
unwrapped).  Inside the `try`: prompt construction, then `generate_async`,
then either the streaming loop (`request.stream` true) or the
non-streaming `RuntimeError` of line 103; every exception of the `try` body
goes through the two `except` clauses (`chatCatch`). -/
def generate_chat (engineInit : Bool) (req : ChatRequest) (o : ChatOracle) :
    ChatRun :=
  if engineInit = false then
    ⟨[], false, .error (.plain (.runtimeError "Engine not initialized"))⟩
  else
    match o.template with
    | .error e => chatCatch [] e
    | .ok _ =>
      match o.invoke with
      | .error e => chatCatch [] e
      | .ok _ =>
        if req.stream then
          match o.streamEnd with
          | .ok _ => ⟨o.chunks, false, .ok ()⟩
          | .error e => chatCatch o.chunks e
        else
          chatCatch [] unsupportedOperationError

/-- The first exception that reaches the chat handler's `except` clauses
for a given oracle, if any: the failure of the earliest failing stage, or —
when every stage succeeds but `stream` is false — the `RuntimeError` of
worker.py line 103. -/
def chatFirstExc (req : ChatRequest) (o : ChatOracle) : Option PyExc :=
  match o.template with
  | .error e => some e
  | .ok _ =>
    match o.invoke with
    | .error e => some e
    | .ok _ =>
      if req.stream then
        match o.streamEnd with
        | .ok _ => none
        | .error e => some e
      else
        some unsupportedOperationError

/-- The exception a chat run terminated with, context stripped. -/
def raisedOf (r : ChatRun) : Option PyExc :=
  match r.result with
  | .ok _ => none
  | .error (.plain e) => some e
  | .error (.chained e _) => some e

/-! ## Prefill path (`RequestHandler.generate`, prefill_worker.py 40-96) -/

/-- The NIXL addressing metadata of one engine (opaque payload). -/
structure NixlMetadata where
  engine_id : String
  payload : Int
  deriving DecidableEq

/-- The error `NixlMetadataStore.get` fails with for an absent identifier. -/
inductive StoreErr where
  | notFoundError
  deriving DecidableEq

/-- Errors of the prefill handler's handshake, named as in the spec's
taxonomy (§7): the store lookup failing with `NotFoundError` fails the
handshake with `MetadataUnavailableError`. -/
inductive PrefillErr where
  | metadataUnavailableError (cause : StoreErr)
  deriving DecidableEq

/-- Modelled from the spec: `NixlMetadataStore` is imported from `common`
and its source is not part of this repository snapshot.  Spec §4.1:
`get(engine_id)` fails with `NotFoundError` if no metadata has been
published for that identifier, otherwise returns the published metadata.
The store snapshot is a key/value association list (entries are
write-once-then-immutable for the handshake's purposes, §5). -/
def NixlMetadataStore.get (store : List (String × NixlMetadata))
    (id : String) : Except StoreErr NixlMetadata :=
  match store.lookup id with
  | none => .error .notFoundError
  | some md => .ok md

/-- The vLLM sampling parameters the prefill handler touches
(prefill_worker.py lines 45-47), plus one representative untouched field. -/
structure SamplingParams where
  max_tokens : Option Nat
  min_tokens : Nat
  seed : Option Int
  deriving DecidableEq

/-- `vllm.remote_prefill.RemotePrefillParams` as built at lines 49-53. -/
structure RemotePrefillParams where
  is_remote_decode : Bool
  decode_block_ids : List Nat
  decode_engine_id : String
  deriving DecidableEq

/-- The decoded `RemotePrefillRequest` (prefill_worker.py lines 41-43). -/
structure RemotePrefillRequest where
  request_id : String
  engine_id : String
  block_ids : List Nat
  prompt_token_ids : List Nat
  sampling_params : SamplingParams
  deriving DecidableEq

/-- Observable calls of the prefill handler, in program order: the metadata
store lookup (line 65), the metadata ingestion
`engine_client.add_remote_nixl_metadata` (line 69), and the engine
generation call (lines 87-92). -/
inductive PEvent where
  | storeGet (id : String)
  | ingest (md : NixlMetadata)
  | engineGenerate (request_id : String) (prompt_token_ids : List Nat)
      (sp : SamplingParams) (rpp : RemotePrefillParams)
  deriving DecidableEq

/-- Summary of one run of the prefill `RequestHandler.generate`: how it
terminated, the final `self._loaded_metadata` set (kept as the list of
identifiers in insertion order), and the trace of collaborator calls. -/
structure PrefillRun where
  result : Except PrefillErr Unit
  loaded : List String
  events : List PEvent
  deriving DecidableEq

/-- prefill_worker.py lines 40-96.  Sampling parameters are overwritten with
`max_tokens = 1`, `min_tokens = 1` (lines 45-47); the remote-prefill
parameters are built from the request (lines 49-53); if the engine id is not
in `self._loaded_metadata` the store is queried and the metadata ingested
before the id is added to the set (lines 61-78); a store `NotFoundError`
propagates out of the handler (no `try`, no retry, the set is untouched),
failing the request with the spec's `MetadataUnavailableError`; finally the
engine generation call is made (lines 87-92). -/
def RequestHandler.generate (store : List (String × NixlMetadata))
    (loaded : List String) (req : RemotePrefillRequest) : PrefillRun :=
  let sp : SamplingParams := ⟨some 1, 1, req.sampling_params.seed⟩
  let rpp : RemotePrefillParams := ⟨true, req.block_ids, req.engine_id⟩
  if req.engine_id ∈ loaded then
    ⟨.ok (), loaded,
      [.engineGenerate req.request_id req.prompt_token_ids sp rpp]⟩
  else
    match NixlMetadataStore.get store req.engine_id with
    | .error .notFoundError =>
      ⟨.error (.metadataUnavailableError .notFoundError), loaded,
        [.storeGet req.engine_id]⟩
    | .ok md =>
      ⟨.ok (), loaded ++ [req.engine_id],
        [.storeGet req.engine_id, .ingest md,
         .engineGenerate req.request_id req.prompt_token_ids sp rpp]⟩

/-- Two sequential invocations of the prefill handler against the same
(immutable) store snapshot, the second starting from the loaded-metadata
set the first left behind. -/
def twoPrefillRuns (store : List (String × NixlMetadata))
    (loaded : List String) (r1 r2 : RemotePrefillRequest) :
    PrefillRun × PrefillRun :=
  let a := RequestHandler.generate store loaded r1
  (a, RequestHandler.generate store a.loaded r2)

/-- Number of `storeGet` events in a trace. -/
def countStoreGets (evs : List PEvent) : Nat :=
  (evs.filter fun e =>
    match e with
    | .storeGet _ => true
    | _ => false).length

/-- Number of `ingest` events in a trace. -/
def countIngests (evs : List PEvent) : Nat :=
  (evs.filter fun e =>
    match e with
    | .ingest _ => true
    | _ => false).length

/-- The sampling parameters of each `engineGenerate` event of a trace. -/
def genSP (e : PEvent) : Option SamplingParams :=
  match e with
  | .engineGenerate _ _ sp _ => some sp
  | _ => none

/-! ## Concrete inputs used by counterexamples and witnesses -/

/-- A completion request with a plain string prompt. -/
def reqA : CompletionRequest := ⟨.str "hello", none, true, 0, none⟩

/-- A completion request whose prompt field is the empty list. -/
def reqB : CompletionRequest := ⟨.intList [], none, true, 0, none⟩

/-- A two-prompt completion request with `n = 2` (spec §8, property 6). -/
def reqC1 : CompletionRequest :=
  ⟨.strList ["hello", "world"], some 2, true, 0, none⟩

/-- A non-streaming chat request. -/
def reqChatNS : ChatRequest := ⟨false⟩

/-- A streaming chat request. -/
def reqChatS : ChatRequest := ⟨true⟩

/-- A chat oracle in which every external call succeeds. -/
def oBenign : ChatOracle := ⟨.ok (), .ok (), [], .ok ()⟩

/-- A chat oracle in which prompt construction raises an ordinary exception. -/
def oTplFail : ChatOracle :=
  ⟨.error (.runtimeError "bad template"), .ok (), [], .ok ()⟩

/-- A prefill request from decode engine `"e1"`. -/
def reqP1 : RemotePrefillRequest := ⟨"r1", "e1", [0], [1, 2], ⟨some 5, 0, none⟩⟩

/-- A store snapshot in which engine `"e1"` has published its metadata. -/
def storeW : List (String × NixlMetadata) := [("e1", ⟨"e1", 7⟩)]

/-! ## Helper lemmas -/

/-- A normalization that returns a prompt list returns a nonempty one. -/
lemma normalize_ok_len (p : CompletionPromptField) (prompts : List OnePrompt)
    (h : normalizePrompt p = .ok prompts) : 1 ≤ prompts.length := by
  cases p with
  | str s => simp [normalizePrompt] at h; simp [← h]
  | intList ts =>
    cases ts with
    | nil => simp [normalizePrompt] at h
    | cons t ts => simp [normalizePrompt] at h; simp [← h]
  | strList ss =>
    cases ss with
    | nil => simp [normalizePrompt] at h
    | cons s ss => simp [normalizePrompt] at h; simp [← h]
  | intListList tss =>
    cases tss with
    | nil => simp [normalizePrompt] at h
    | cons ts tss => simp [normalizePrompt] at h; simp [← h]

/-- `createGenArgs` of the trace produced on the successful-normalization path. -/
lemma createGenArgs_trace (prompts : List OnePrompt) (sp : Int) (st : Bool)
    (dp : Option Int) (k : Int) :
    createGenArgs (CEvent.deriveSampling :: CEvent.deriveDisagg ::
        (prompts.map (fun p => CEvent.engineCall p sp st dp)
          ++ [CEvent.createGenerator k])) = [k] := by
  induction prompts with
  | nil => rfl
  | cons p ps ih => simp [createGenArgs, List.filterMap_append, List.filterMap_map]

/-! ## Claim theorems: completion path -/

/-- C1 (counterexample): the claim says the ongoing-request counter returns
to its pre-request value on every exit path, including an exception
unwinding the handler.  It does not: with the counter at 0 on entry, a
request whose stream consumption raises leaves the handler by exception
with the counter still at 1 — the decrement at worker.py line 147 is not in
a `finally` and is skipped. -/
theorem C1_counter_cex :
    (generate_completion true reqA (.error (.runtimeError "engine failure")) 0).result
        = .error (.runtimeError "engine failure") ∧
      (generate_completion true reqA (.error (.runtimeError "engine failure")) 0).counter ≠ 0 :=
  ⟨rfl, by decide⟩

/-- C1 (amended): for a request accepted by the completion handler (engine
initialized), the ongoing-request counter is incremented on entry and
decremented only when the handler terminates normally; on every exit path
that raises — normalization error or a failure while consuming the response
stream — the decrement is skipped and the counter remains one above its
pre-request value (release is best-effort, not guaranteed). -/
theorem C1_counter_amended (req : CompletionRequest) (so : Except PyExc Unit)
    (c : Int) :
    (generate_completion true req so c).counter =
      (if isOkE (generate_completion true req so c).result then c else c + 1) := by
  cases hn : normalizePrompt req.prompt <;> cases so <;>
    simp [generate_completion, hn, isOkE]

/-- C3: for a completion request that normalizes to `K ≥ 1` prompts, the
handler passes `num_choices = K` to the completion-response generator when
`request.n` is unset, and `num_choices = K * n` when `n` is a positive
integer (worker.py lines 139-142). -/
theorem C3_num_choices (req : CompletionRequest) (so : Except PyExc Unit)
    (c : Int) (prompts : List OnePrompt)
    (h : normalizePrompt req.prompt = .ok prompts) :
    1 ≤ prompts.length ∧
    (req.n = none →
      createGenArgs (generate_completion true req so c).events =
        [(prompts.length : Int)]) ∧
    (∀ n, req.n = some n → 0 < n →
      createGenArgs (generate_completion true req so c).events =
        [(prompts.length : Int) * n]) := by
  refine ⟨normalize_ok_len _ _ h, ?_, ?_⟩
  · intro hn
    cases so <;> simp [generate_completion, h, hn, createGenArgs_trace]
  · intro n hn _
    cases so <;> simp [generate_completion, h, hn, createGenArgs_trace]

/-- C3 witness: the spec's scenario — `prompt = ["hello", "world"]`, `n = 2`
gives `num_choices = 2 * 2`. -/
theorem C3_num_choices_witness :
    normalizePrompt reqC1.prompt
        = .ok [OnePrompt.str "hello", OnePrompt.str "world"] ∧
      (0 : Int) < 2 ∧
      createGenArgs (generate_completion true reqC1 (.ok ()) 0).events =
        [(([OnePrompt.str "hello", OnePrompt.str "world"].length : Int)) * 2] :=
  ⟨rfl, by decide,
    (C3_num_choices reqC1 (.ok ()) 0
        [OnePrompt.str "hello", OnePrompt.str "world"] rfl).2.2 2 rfl (by decide)⟩

/-- C7: the normalization step maps a single string to the one-element
sequence containing it, a nonempty token list to the one-element sequence
containing it, and a nonempty sequence of strings or of token lists to
itself, in order; every normalized sequence has `K ≥ 1` prompts
(worker.py lines 118-123). -/
theorem C7_normalize :
    (∀ s, normalizePrompt (.str s) = .ok [.str s]) ∧
    (∀ t ts, normalizePrompt (.intList (t :: ts)) = .ok [.tokens (t :: ts)]) ∧
    (∀ s ss, normalizePrompt (.strList (s :: ss))
      = .ok ((s :: ss).map OnePrompt.str)) ∧
    (∀ ts tss, normalizePrompt (.intListList (ts :: tss))
      = .ok ((ts :: tss).map OnePrompt.tokens)) ∧
    (∀ p prompts, normalizePrompt p = .ok prompts → 1 ≤ prompts.length) :=
  ⟨fun _ => rfl, fun _ _ => rfl, fun _ _ => rfl, fun _ _ => rfl,
    normalize_ok_len⟩

/-- C7 witness at the prompt `"hi"`. -/
theorem C7_normalize_witness :
    normalizePrompt (.str "hi") = .ok [.str "hi"] ∧
      1 ≤ [OnePrompt.str "hi"].length :=
  ⟨C7_normalize.1 "hi",
    C7_normalize.2.2.2.2 (.str "hi") [.str "hi"] (C7_normalize.1 "hi")⟩

/-- C8: on the successful-normalization path the trace of the completion
handler is exactly: one sampling-parameter derivation and one
disaggregated-parameter derivation, in that order, before the invocation
loop, followed by one `generate_async` call per normalized prompt, in
prompt order, each forwarding the same derived sampling parameters and the
same disaggregated-parameter block (worker.py lines 125-136). -/
theorem C8_derive_once (req : CompletionRequest) (so : Except PyExc Unit)
    (c : Int) (prompts : List OnePrompt)
    (h : normalizePrompt req.prompt = .ok prompts) :
    ∃ k, (generate_completion true req so c).events =
      [CEvent.deriveSampling, CEvent.deriveDisagg]
        ++ prompts.map (fun p =>
            CEvent.engineCall p req.to_sampling_params req.stream
              req.to_llm_disaggregated_params)
        ++ [CEvent.createGenerator k] := by
  refine ⟨match req.n with
          | none => (prompts.length : Int)
          | some n => (prompts.length : Int) * n, ?_⟩
  cases so <;> simp [generate_completion, h]

/-- C8 witness at the two-prompt request. -/
theorem C8_derive_once_witness :
    normalizePrompt reqC1.prompt
        = .ok [OnePrompt.str "hello", OnePrompt.str "world"] ∧
      ∃ k, (generate_completion true reqC1 (.ok ()) 0).events =
        [CEvent.deriveSampling, CEvent.deriveDisagg]
          ++ [OnePrompt.str "hello", OnePrompt.str "world"].map (fun p =>
              CEvent.engineCall p reqC1.to_sampling_params reqC1.stream
                reqC1.to_llm_disaggregated_params)
          ++ [CEvent.createGenerator k] :=
  ⟨rfl, C8_derive_once reqC1 (.ok ()) 0
    [OnePrompt.str "hello", OnePrompt.str "world"] rfl⟩

/-- C10: a completion request whose prompt field is an empty list makes the
handler evaluate `request.prompt[0]` (worker.py line 119) and raise
`IndexError` — a bare subscript error, not one of the spec's named errors —
after the ongoing-request counter was incremented (line 115) and before any
engine call or parameter derivation happens (the trace is empty); the
counter stays one above its pre-request value. -/
theorem C10_empty_prompt (req : CompletionRequest) (so : Except PyExc Unit)
    (c : Int)
    (h : req.prompt = .intList [] ∨ req.prompt = .strList []
      ∨ req.prompt = .intListList []) :
    (generate_completion true req so c).result = .error .indexError ∧
    (generate_completion true req so c).counter = c + 1 ∧
    (generate_completion true req so c).events = [] := by
  rcases h with h | h | h <;> cases so <;>
    simp [generate_completion, h, normalizePrompt]

/-- C10 witness at the empty token-list prompt. -/
theorem C10_empty_prompt_witness :
    (reqB.prompt = .intList [] ∨ reqB.prompt = .strList []
        ∨ reqB.prompt = .intListList []) ∧
      ((generate_completion true reqB (.ok ()) 0).result = .error .indexError ∧
       (generate_completion true reqB (.ok ()) 0).counter = 0 + 1 ∧
       (generate_completion true reqB (.ok ()) 0).events = []) :=
  ⟨Or.inl rfl, C10_empty_prompt reqB (.ok ()) 0 (Or.inl rfl)⟩

/-! ## Claim theorems: chat path -/

/-- The two `except` clauses of the chat handler, summarised: a
`CppExecutorError` sets the shutdown signal and ends the run normally; any
other exception is re-raised wrapped, with the original as its context. -/
lemma chatCatch_spec (ys : List Nat) (e : PyExc) :
    chatCatch ys e =
      ⟨ys, (if e = PyExc.cppExecutorError then true else false),
        (if e = PyExc.cppExecutorError then .ok ()
         else .error (.chained
           (.runtimeError ("Failed to generate: " ++ PyExc.str e)) e))⟩ := by
  cases e <;> simp [chatCatch, PyExc.str]

/-- C4: whichever exception first reaches the chat handler's `except`
clauses — from prompt construction, the `generate_async` invocation, or
the streaming loop — a `CppExecutorError` raises the process-wide shutdown
signal and the run ends without a per-request error, while any other
exception ends the run with a generic failure `RuntimeError` prefixed
`"Failed to generate: "` whose implicit `__context__` is the original
exception (worker.py lines 104-108). -/
theorem C4_chat_errors (req : ChatRequest) (o : ChatOracle) (e : PyExc)
    (h : chatFirstExc req o = some e) :
    (generate_chat true req o).sigint
        = (if e = PyExc.cppExecutorError then true else false) ∧
      (generate_chat true req o).result =
        (if e = PyExc.cppExecutorError then .ok ()
         else .error (.chained
           (.runtimeError ("Failed to generate: " ++ PyExc.str e)) e)) := by
  cases ht : o.template with
  | error e1 =>
    have he : e1 = e := by simpa [chatFirstExc, ht] using h
    subst he
    simp [generate_chat, ht, chatCatch_spec]
  | ok _ =>
    cases hi : o.invoke with
    | error e1 =>
      have he : e1 = e := by simpa [chatFirstExc, ht, hi] using h
      subst he
      simp [generate_chat, ht, hi, chatCatch_spec]
    | ok _ =>
      by_cases hs : req.stream
      · cases hse : o.streamEnd with
        | ok _ => simp [chatFirstExc, ht, hi, hs, hse] at h
        | error e1 =>
          have he : e1 = e := by simpa [chatFirstExc, ht, hi, hs, hse] using h
          subst he
          simp [generate_chat, ht, hi, hs, hse, chatCatch_spec]
      · have he : unsupportedOperationError = e := by
          simpa [chatFirstExc, ht, hi, hs] using h
        subst he
        simp [generate_chat, ht, hi, hs, chatCatch_spec,
          unsupportedOperationError]

/-- C4 witness: a prompt-construction failure other than `CppExecutorError`
is surfaced wrapped, with the original as context and no shutdown signal. -/
theorem C4_chat_errors_witness :
    chatFirstExc reqChatS oTplFail = some (PyExc.runtimeError "bad template") ∧
      ((generate_chat true reqChatS oTplFail).sigint = false ∧
       (generate_chat true reqChatS oTplFail).result =
         .error (.chained
           (.runtimeError
             ("Failed to generate: " ++ PyExc.str (.runtimeError "bad template")))
           (.runtimeError "bad template"))) :=
  ⟨rfl, by
    simpa using
      C4_chat_errors reqChatS oTplFail (.runtimeError "bad template") rfl⟩

/-- C5 (counterexample): the claim says a chat request with `stream = false`
fails with `UnsupportedOperationError`.  With an initialized engine and all
external calls succeeding, the handler does fail and yields nothing, but the
exception that leaves the handler is the catch-all wrapper
`RuntimeError("Failed to generate: Non-streaming is not supported")` — the
`RuntimeError` of worker.py line 103 is caught by `except Exception` at line
107 and survives only as the context of the wrapper, so the surfaced error
is not `UnsupportedOperationError`. -/
theorem C5_nonstreaming_cex :
    isOkE (generate_chat true reqChatNS oBenign).result = false ∧
      raisedOf (generate_chat true reqChatNS oBenign)
          ≠ some unsupportedOperationError ∧
      raisedOf (generate_chat true reqChatNS oBenign) =
        some (.runtimeError
          ("Failed to generate: " ++ PyExc.str unsupportedOperationError)) := by
  decide

/-- C5 (amended): for every chat request with `stream = false` and an
initialized engine the handler never yields a response value, and —
provided prompt construction and invocation do not themselves raise — it
deterministically fails with the generic `GenerationFailedError` wrapper
whose preserved context is the `UnsupportedOperationError` of worker.py
line 103. -/
theorem C5_nonstreaming_amended (req : ChatRequest) (o : ChatOracle)
    (hs : req.stream = false) :
    (generate_chat true req o).yielded = [] ∧
      (o.template = .ok () → o.invoke = .ok () →
        (generate_chat true req o).result =
          .error (.chained
            (.runtimeError
              ("Failed to generate: " ++ PyExc.str unsupportedOperationError))
            unsupportedOperationError)) := by
  constructor
  · cases ht : o.template with
    | error e => simp [generate_chat, ht, chatCatch_spec]
    | ok _ =>
      cases hi : o.invoke with
      | error e => simp [generate_chat, ht, hi, chatCatch_spec]
      | ok _ => simp [generate_chat, ht, hi, hs, chatCatch_spec]
  · intro ht hi
    simp [generate_chat, ht, hi, hs, chatCatch_spec, unsupportedOperationError,
      PyExc.str]

/-- C5 amended witness: the benign non-streaming run. -/
theorem C5_nonstreaming_amended_witness :
    (generate_chat true reqChatNS oBenign).yielded = [] ∧
      (generate_chat true reqChatNS oBenign).result =
        .error (.chained
          (.runtimeError
            ("Failed to generate: " ++ PyExc.str unsupportedOperationError))
          unsupportedOperationError) :=
  ⟨(C5_nonstreaming_amended reqChatNS oBenign rfl).1,
   (C5_nonstreaming_amended reqChatNS oBenign rfl).2 rfl rfl⟩

/-! ## Claim theorems: prefill path -/

/-- C6: when the remote engine identifier is not yet in the loaded-metadata
set and the metadata store has no entry for it, the prefill handler's
handshake fails the request with `MetadataUnavailableError`; the trace shows
exactly one store lookup — so no retry at this layer — and no ingestion and
no engine call, and the loaded-metadata set is unchanged, so the identifier
is not added (prefill_worker.py lines 61-78). -/
theorem C6_metadata_unavailable (store : List (String × NixlMetadata))
    (loaded : List String) (req : RemotePrefillRequest)
    (h1 : req.engine_id ∉ loaded)
    (h2 : NixlMetadataStore.get store req.engine_id = .error .notFoundError) :
    (RequestHandler.generate store loaded req).result
        = .error (.metadataUnavailableError .notFoundError) ∧
      (RequestHandler.generate store loaded req).loaded = loaded ∧
      (RequestHandler.generate store loaded req).events
        = [.storeGet req.engine_id] := by
  simp [RequestHandler.generate, h1, h2]

/-- C6 witness: an empty store and an empty loaded-metadata set. -/
theorem C6_metadata_unavailable_witness :
    reqP1.engine_id ∉ ([] : List String) ∧
      NixlMetadataStore.get [] reqP1.engine_id = .error .notFoundError ∧
      (RequestHandler.generate [] [] reqP1).result
        = .error (.metadataUnavailableError .notFoundError) :=
  ⟨by simp, rfl, (C6_metadata_unavailable [] [] reqP1 (by simp) rfl).1⟩

/-- C9: on every run of the prefill handler, every engine generation call
carries sampling parameters overwritten to `max_tokens = 1` and
`min_tokens = 1` — whatever the decoded request carried — so the engine is
asked for exactly one token; precisely, a run that terminates normally
makes exactly one engine call, with the request's sampling parameters
except `max_tokens := 1` and `min_tokens := 1`, and a failed run makes none
(prefill_worker.py lines 45-47, 87-92). -/
theorem C9_prefill_one_token (store : List (String × NixlMetadata))
    (loaded : List String) (req : RemotePrefillRequest) :
    (((RequestHandler.generate store loaded req).events.filterMap genSP).all
        (fun sp => sp.max_tokens == some 1 && sp.min_tokens == 1)) = true ∧
      ((RequestHandler.generate store loaded req).events.filterMap genSP) =
        (if isOkE (RequestHandler.generate store loaded req).result then
          [⟨some 1, 1, req.sampling_params.seed⟩] else []) := by
  by_cases hm : req.engine_id ∈ loaded
  · simp [RequestHandler.generate, hm, genSP, isOkE]
  · cases hg : NixlMetadataStore.get store req.engine_id with
    | error e =>
      cases e
      simp [RequestHandler.generate, hm, hg, genSP, isOkE]
    | ok md => simp [RequestHandler.generate, hm, hg, genSP, isOkE]

/-- C2 (counterexample): the claim says two sequential handshake invocations
with the same remote engine identifier perform at most one metadata fetch
from the store.  When the store has no entry for the identifier, the first
invocation's lookup fails, nothing is added to the loaded-metadata set, and
the second invocation queries the store again: two store fetches. -/
theorem C2_handshake_cex :
    ¬ (countStoreGets ((twoPrefillRuns [] [] reqP1 reqP1).1.events
        ++ (twoPrefillRuns [] [] reqP1 reqP1).2.events) ≤ 1) := by
  decide

/-- C2 (amended): two sequential handshake invocations with the same remote
engine identifier perform at most one metadata ingestion; when the first
invocation succeeds, the second performs no store access and no ingestion
(it returns to generation immediately); and an invocation whose identifier
is already in the loaded-metadata set performs no store access and no
ingestion.  Only when the first invocation's lookup fails does the second
touch the store again (prefill_worker.py lines 61-82). -/
theorem C2_handshake_amended (store : List (String × NixlMetadata))
    (loaded : List String) (r1 r2 : RemotePrefillRequest)
    (hid : r1.engine_id = r2.engine_id) :
    countIngests ((twoPrefillRuns store loaded r1 r2).1.events
        ++ (twoPrefillRuns store loaded r1 r2).2.events) ≤ 1 ∧
      (isOkE (twoPrefillRuns store loaded r1 r2).1.result = true →
        countStoreGets (twoPrefillRuns store loaded r1 r2).2.events = 0 ∧
        countIngests (twoPrefillRuns store loaded r1 r2).2.events = 0) ∧
      (r1.engine_id ∈ loaded →
        countStoreGets (twoPrefillRuns store loaded r1 r2).1.events = 0 ∧
        countIngests (twoPrefillRuns store loaded r1 r2).1.events = 0) := by
  by_cases h1 : r1.engine_id ∈ loaded
  · have h2 : r2.engine_id ∈ loaded := hid ▸ h1
    simp [twoPrefillRuns, RequestHandler.generate, h1, h2, countStoreGets,
      countIngests, isOkE]
  · have h2 : r2.engine_id ∉ loaded := hid ▸ h1
    cases hg : NixlMetadataStore.get store r1.engine_id with
    | error e =>
      cases e
      have hg2 : NixlMetadataStore.get store r2.engine_id
          = .error .notFoundError := hid ▸ hg
      simp [twoPrefillRuns, RequestHandler.generate, h1, h2, hg, hg2,
        countStoreGets, countIngests, isOkE]
    | ok md =>
      have h2m : r2.engine_id ∈ loaded ++ [r1.engine_id] := by simp [← hid]
      simp [twoPrefillRuns, RequestHandler.generate, h1, h2m, hg,
        countStoreGets, countIngests, isOkE]

/-- C2 amended witness: with the metadata published, the first invocation
fetches and ingests once and the second touches neither the store nor the
ingestion call. -/
theorem C2_handshake_amended_witness :
    isOkE (twoPrefillRuns storeW [] reqP1 reqP1).1.result = true ∧
      countIngests ((twoPrefillRuns storeW [] reqP1 reqP1).1.events
          ++ (twoPrefillRuns storeW [] reqP1 reqP1).2.events) ≤ 1 ∧
      countStoreGets (twoPrefillRuns storeW [] reqP1 reqP1).2.events = 0 :=
  ⟨by decide, (C2_handshake_amended storeW [] reqP1 reqP1 rfl).1,
    ((C2_handshake_amended storeW [] reqP1 reqP1 rfl).2.1 (by decide)).1⟩
